import Mathlib

/-!
Shallow embedding of the Agent Adam command-interpretation core:
`CommandProcessor.mo` (tokenizer, intent classifier, entity extractor,
confidence scorer, approval gate) and the channel-formatting functions of the
`GHLIntegration` module (voice and workflow formatting).

Motoko `Text` is modelled as Lean `String`, `Float` as `ℚ` (all the float
literals in the source are exact decimal fractions), arrays and buffers as
`List`, and the buffer-accumulating `for` loops as `List.foldl` pushes.
-/

namespace AgentAdam

/-- Split a character list at every occurrence of the separator, keeping empty
fields, as Motoko `Text.split(_, #char c)` does. -/
def splitAuxChar (c : Char) : List Char → List (List Char)
  | [] => [[]]
  | x :: xs =>
    match splitAuxChar c xs with
    | [] => [[]]
    | y :: ys => if x == c then [] :: y :: ys else (x :: y) :: ys

def textSplitOnSpace (s : String) : List String :=
  (splitAuxChar ' ' s.toList).map (fun cs => String.mk cs)

/-- Motoko `Text.trim(_, #char ' ')`. -/
def textTrimSpace (s : String) : String :=
  String.mk (((s.toList.dropWhile (fun c => c == ' ')).reverse.dropWhile
    (fun c => c == ' ')).reverse)

/-- Motoko `Text.toLowercase` (ASCII case mapping suffices here). -/
def textToLower (s : String) : String :=
  String.mk (s.toList.map Char.toLower)

/-- `pat` occurs as a contiguous substring of the character list. -/
def substrAux (pat : List Char) : List Char → Bool
  | [] => pat.isEmpty
  | c :: cs => List.isPrefixOf pat (c :: cs) || substrAux pat cs

/-- Motoko `Text.contains(s, #text pat)`. -/
def textContains (s pat : String) : Bool :=
  substrAux pat.toList s.toList

/-! ### Data model (`Types.mo`) -/

structure CommandContext where
  locationId : String
  sourceMetadata : Option String
  priority : Nat
  retryCount : Nat
deriving DecidableEq

inductive Intent where
  | Create (objectType : String)
  | Update (objectType : String) (identifier : String)
  | Delete (objectType : String) (identifier : String)
  | Query (objectType : String) (filters : List String)
  | Automation (triggerType : String) (conditions : List String)
  | Unknown
deriving DecidableEq

structure Entity where
  entityType : String
  value : String
  confidence : ℚ
deriving DecidableEq

structure CommandInterpretation where
  intent : Intent
  entities : List Entity
  confidence : ℚ
  requiresApproval : Bool
deriving DecidableEq

/-! ### Vocabulary tables (`CommandProcessor.mo`) -/

def stopWords : List String :=
  ["the", "a", "an", "and", "or", "but", "in", "on", "at", "to", "for",
   "of", "with", "by", "from", "up", "about", "into", "through", "during",
   "before", "after", "above", "below", "between", "among", "is", "are",
   "was", "were", "be", "been", "being", "have", "has", "had", "do", "does",
   "did", "will", "would", "could", "should", "may", "might", "must", "can"]

def ghlEntities : List String :=
  ["contact", "lead", "opportunity", "pipeline", "workflow", "campaign",
   "appointment", "calendar", "form", "funnel", "website", "automation",
   "tag", "trigger", "action", "email", "sms", "call", "task", "note",
   "invoice", "payment", "subscription", "location", "user", "agency"]

def createKeywords : List String :=
  ["create", "build", "make", "add", "new", "generate", "setup", "start"]

def updateKeywords : List String :=
  ["update", "modify", "change", "edit", "revise", "alter", "adjust"]

def deleteKeywords : List String :=
  ["delete", "remove", "cancel", "stop", "end", "terminate", "clear"]

def queryKeywords : List String :=
  ["show", "get", "list", "find", "search", "view", "display", "check"]

def automationKeywords : List String :=
  ["automate", "trigger", "activate", "schedule", "set", "configure"]

/-! ### Tokenizer -/

def isStopWord (word : String) : Bool :=
  (stopWords.find? (fun stopWord => stopWord == word)).isSome

def extractKeywords (instruction : String) : List String :=
  let words := textSplitOnSpace (textToLower instruction)
  words.foldl (fun filtered word =>
    let cleanWord := textTrimSpace word
    if 2 < cleanWord.length ∧ ¬ isStopWord cleanWord then filtered ++ [cleanWord]
    else filtered) []

/-! ### Intent classifier -/

def hasAnyKeyword (words keywords : List String) : Bool :=
  (words.find? (fun word =>
    (keywords.find? (fun keyword => keyword == word)).isSome)).isSome

def findGHLEntity (words : List String) : String :=
  match words.find? (fun word =>
      (ghlEntities.find? (fun entity => entity == word)).isSome) with
  | some entity => entity
  | none => "unknown"

def extractIdentifier (instruction : String) : String :=
  if textContains instruction "\"" then "quoted_identifier"
  else if textContains instruction "id:" then "extracted_id"
  else "auto_detected"

def filterWords : List String :=
  ["today", "yesterday", "week", "month", "active", "inactive", "new", "old"]

def extractFilters (words : List String) : List String :=
  words.foldl (fun filters word =>
    if (filterWords.find? (fun filter => filter == word)).isSome then filters ++ [word]
    else filters) []

def triggerTypes : List String :=
  ["email", "form", "webhook", "schedule", "tag", "status"]

def findTriggerType (words : List String) : String :=
  match words.find? (fun word =>
      (triggerTypes.find? (fun trigger => trigger == word)).isSome) with
  | some trigger => trigger
  | none => "manual"

def extractConditions (instruction : String) : List String :=
  let conditions : List String := []
  let conditions := if textContains instruction "when" then conditions ++ ["conditional"] else conditions
  let conditions := if textContains instruction "if" then conditions ++ ["conditional"] else conditions
  let conditions := if textContains instruction "after" then conditions ++ ["temporal"] else conditions
  let conditions := if textContains instruction "before" then conditions ++ ["temporal"] else conditions
  conditions

def detectIntent (words : List String) (instruction : String) : Intent :=
  let lowerInstruction := textToLower instruction
  if hasAnyKeyword words createKeywords then
    Intent.Create (findGHLEntity words)
  else if hasAnyKeyword words updateKeywords then
    Intent.Update (findGHLEntity words) (extractIdentifier lowerInstruction)
  else if hasAnyKeyword words deleteKeywords then
    Intent.Delete (findGHLEntity words) (extractIdentifier lowerInstruction)
  else if hasAnyKeyword words queryKeywords then
    Intent.Query (findGHLEntity words) (extractFilters words)
  else if hasAnyKeyword words automationKeywords then
    Intent.Automation (findTriggerType words) (extractConditions lowerInstruction)
  else
    Intent.Unknown

/-! ### Entity extractor -/

def timeWords : List String :=
  ["today", "tomorrow", "yesterday", "week", "month", "year"]

def extractEntities (words : List String) (instruction : String) : List Entity :=
  let entities : List Entity := []
  let entities := words.foldl (fun acc word =>
    if (ghlEntities.find? (fun entity => entity == word)).isSome then
      acc ++ [{ entityType := "ghl_object", value := word, confidence := 0.9 }]
    else acc) entities
  let entities := words.foldl (fun acc word =>
    if (timeWords.find? (fun timeWord => timeWord == word)).isSome then
      acc ++ [{ entityType := "time_reference", value := word, confidence := 0.8 }]
    else acc) entities
  let entities := words.foldl (fun acc word =>
    if word == "1" ∨ word == "2" ∨ word == "5" ∨ word == "10" then
      acc ++ [{ entityType := "number", value := word, confidence := 0.7 }]
    else acc) entities
  entities

/-! ### Confidence scorer -/

def calculateConfidence (intent : Intent) (entities : List Entity) (words : List String) : ℚ :=
  let baseConfidence : ℚ :=
    match intent with
    | Intent.Unknown => 0.1
    | _ => 0.6
  let entityBoost : ℚ := (entities.length : ℚ) * 0.1
  let baseConfidence := baseConfidence + entityBoost
  let wordCount : ℚ := (words.length : ℚ)
  let baseConfidence :=
    if 0 < wordCount then
      let ghlEntityCount : ℚ :=
        ((entities.foldl (fun acc entity =>
          if entity.entityType == "ghl_object" then acc + 1 else acc) (0 : Int) : Int) : ℚ)
      let density := ghlEntityCount / wordCount
      baseConfidence + density * 0.2
    else baseConfidence
  if 1 < baseConfidence then 1 else baseConfidence

/-! ### Approval gate -/

def shouldRequireApproval (intent : Intent) (context : CommandContext) : Bool :=
  match intent with
  | Intent.Delete _ _ => true
  | Intent.Create objectType =>
    objectType == "workflow" || objectType == "campaign" || objectType == "automation"
  | Intent.Automation _ _ => true
  | _ => decide (3 ≤ context.priority)

/-! ### Pipeline entry point -/

def interpretCommand (instruction : String) (context : CommandContext) : CommandInterpretation :=
  let words := extractKeywords instruction
  let intent := detectIntent words instruction
  let entities := extractEntities words instruction
  let confidence := calculateConfidence intent entities words
  let requiresApproval := shouldRequireApproval intent context
  { intent := intent
    entities := entities
    confidence := confidence
    requiresApproval := requiresApproval }

/-! ### Execution results and channel formatting (`GHLIntegration`) -/

inductive ExecutionStatus where
  | Pending
  | Processing
  | Completed
  | Failed (reason : String)
  | PartialSuccess (warnings : List String)
deriving DecidableEq

structure ExecutedAction where
  actionType : String
  description : String
  result : String
  timestamp : Int
deriving DecidableEq

structure ExecutionResult where
  commandId : String
  status : ExecutionStatus
  actions : List ExecutedAction
  insights : List String
  nextSteps : List String
  duration : Nat
deriving DecidableEq

structure VoiceResponse where
  spokenText : String
  actions : List String
  shouldEndCall : Bool
  transferNumber : Option String
deriving DecidableEq

structure WorkflowDecision where
  decision : String
  nextStep : String
  variables' : List (String × String)
deriving DecidableEq

def generateSpokenText (result : ExecutionResult) : String :=
  match result.status with
  | ExecutionStatus.Completed =>
    match result.insights with
    | insight :: _ => insight
    | [] => "I\x27ve completed your request successfully."
  | ExecutionStatus.Failed reason =>
    "I\x27m sorry, but I encountered an issue: " ++ reason
  | ExecutionStatus.Processing =>
    "I\x27m currently processing your request. Please hold on."
  | _ => "Your request is being handled."

def shouldEndVoiceCall (result : ExecutionResult) : Bool :=
  match result.status with
  | ExecutionStatus.Failed _ => true
  | _ => false

def getTransferNumber (result : ExecutionResult) : Option String :=
  match result.actions.find? (fun action => action.actionType == "transfer_to_human") with
  | some _ => some "+1234567890"
  | none => none

def generateVoiceActions (actions : List ExecutedAction) : List String :=
  actions.foldl (fun voiceActions action =>
    voiceActions ++
      [match action.actionType with
       | "create_contact" => "contact_created"
       | "send_email" => "email_sent"
       | "schedule_appointment" => "appointment_scheduled"
       | "update_opportunity" => "opportunity_updated"
       | _ => "action_completed"]) []

def formatVoiceResponse (result : ExecutionResult) : VoiceResponse :=
  let spokenText := generateSpokenText result
  let actions := generateVoiceActions result.actions
  { spokenText := spokenText
    actions := actions
    shouldEndCall := shouldEndVoiceCall result
    transferNumber := getTransferNumber result }

def formatExecutionStatus (status : ExecutionStatus) : String :=
  match status with
  | ExecutionStatus.Pending => "pending"
  | ExecutionStatus.Processing => "processing"
  | ExecutionStatus.Completed => "completed"
  | ExecutionStatus.Failed _ => "failed"
  | ExecutionStatus.PartialSuccess _ => "partial_success"

def generateWorkflowVariables (result : ExecutionResult) : List (String × String) :=
  let variables' : List (String × String) := []
  let variables' := variables' ++ [("execution_status", formatExecutionStatus result.status)]
  let variables' := variables' ++ [("command_id", result.commandId)]
  let variables' := variables' ++ [("duration", toString result.duration)]
  variables'

def generateWorkflowDecision (result : ExecutionResult) : WorkflowDecision :=
  match result.status with
  | ExecutionStatus.Completed =>
    { decision := "continue"
      nextStep := "next"
      variables' := generateWorkflowVariables result }
  | ExecutionStatus.Failed _ =>
    { decision := "stop"
      nextStep := "error"
      variables' := [] }
  | _ =>
    { decision := "wait"
      nextStep := "pending"
      variables' := [] }

/-! ### Helper lemmas -/

lemma decide_bool (b : Bool) : decide (b = true) = b := by
  cases b <;> simp

/-- A buffer-push loop is a filter followed by a map. -/
lemma foldl_push_eq {α β : Type} (p : α → Prop) [DecidablePred p] (f : α → β) (l : List α) :
    ∀ init : List β,
      l.foldl (fun acc w => if p w then acc ++ [f w] else acc) init
        = init ++ (l.filter (fun w => decide (p w))).map f := by
  induction l with
  | nil => intro init; simp
  | cons x xs ih =>
    intro init
    simp only [List.foldl_cons, List.filter_cons]
    by_cases h : p x
    · rw [if_pos h, ih]
      simp [h]
    · rw [if_neg h, ih]
      simp [h]

/-- A counting loop is the length of the corresponding filter. -/
lemma foldl_count_eq {α : Type} (p : α → Bool) (l : List α) :
    ∀ k : Int,
      l.foldl (fun acc x => if p x then acc + 1 else acc) k
        = k + ((l.filter p).length : Int) := by
  induction l with
  | nil => intro k; simp
  | cons x xs ih =>
    intro k
    simp only [List.foldl_cons, List.filter_cons]
    by_cases h : p x
    · rw [if_pos h, ih]
      simp [h]
      ring
    · rw [if_neg h, ih]
      simp [h]

lemma hasAnyKeyword_iff (words keywords : List String) :
    hasAnyKeyword words keywords = true ↔ ∃ w ∈ words, w ∈ keywords := by
  unfold hasAnyKeyword
  rw [List.find?_isSome]
  constructor
  · rintro ⟨w, hw, hfind⟩
    rw [List.find?_isSome] at hfind
    obtain ⟨k, hk, hbeq⟩ := hfind
    exact ⟨w, hw, by rwa [← eq_of_beq hbeq]⟩
  · rintro ⟨w, hw, hmem⟩
    refine ⟨w, hw, ?_⟩
    rw [List.find?_isSome]
    exact ⟨w, hmem, by simp⟩

lemma hasAnyKeyword_eq_false_iff (words keywords : List String) :
    hasAnyKeyword words keywords = false ↔ ∀ w ∈ words, w ∉ keywords := by
  rw [← Bool.not_eq_true, hasAnyKeyword_iff]
  push_neg
  rfl

/-- The tokenizer loop, written as filter-and-map. -/
lemma extractKeywords_eq (instruction : String) :
    extractKeywords instruction
      = ((textSplitOnSpace (textToLower instruction)).filter
          (fun w => decide (2 < (textTrimSpace w).length ∧ ¬ isStopWord (textTrimSpace w)))).map
          textTrimSpace := by
  show (textSplitOnSpace (textToLower instruction)).foldl
      (fun acc w => if 2 < (textTrimSpace w).length ∧ ¬ isStopWord (textTrimSpace w)
        then acc ++ [textTrimSpace w] else acc) [] = _
  rw [foldl_push_eq]
  simp

lemma length_gt_two_of_mem_extractKeywords {w : String} {instruction : String}
    (h : w ∈ extractKeywords instruction) : 2 < w.length := by
  rw [extractKeywords_eq] at h
  obtain ⟨v, hv, rfl⟩ := List.mem_map.1 h
  have := List.of_mem_filter hv
  simp only [decide_eq_true_eq] at this
  exact this.1

/-- The entity-extraction loops, written as three filter-and-map blocks. -/
lemma extractEntities_eq (words : List String) (instruction : String) :
    extractEntities words instruction
      = ((words.filter (fun w => decide (w ∈ ghlEntities))).map
          (fun w => { entityType := "ghl_object", value := w, confidence := 0.9 : Entity }))
        ++ ((words.filter (fun w => decide (w ∈ timeWords))).map
          (fun w => { entityType := "time_reference", value := w, confidence := 0.8 : Entity }))
        ++ ((words.filter (fun w => decide (w = "1" ∨ w = "2" ∨ w = "5" ∨ w = "10"))).map
          (fun w => { entityType := "number", value := w, confidence := 0.7 : Entity })) := by
  show words.foldl (fun acc w =>
      if w == "1" ∨ w == "2" ∨ w == "5" ∨ w == "10"
      then acc ++ [{ entityType := "number", value := w, confidence := 0.7 : Entity }]
      else acc)
    (words.foldl (fun acc w =>
      if ((timeWords.find? (fun timeWord => timeWord == w)).isSome : Bool)
      then acc ++ [{ entityType := "time_reference", value := w, confidence := 0.8 : Entity }]
      else acc)
    (words.foldl (fun acc w =>
      if ((ghlEntities.find? (fun entity => entity == w)).isSome : Bool)
      then acc ++ [{ entityType := "ghl_object", value := w, confidence := 0.9 : Entity }]
      else acc) [])) = _
  rw [foldl_push_eq, foldl_push_eq, foldl_push_eq]
  simp [decide_bool]

lemma interpretCommand_intent (instruction : String) (ctx : CommandContext) :
    (interpretCommand instruction ctx).intent
      = detectIntent (extractKeywords instruction) instruction := rfl

lemma interpretCommand_entities (instruction : String) (ctx : CommandContext) :
    (interpretCommand instruction ctx).entities
      = extractEntities (extractKeywords instruction) instruction := rfl

lemma interpretCommand_confidence (instruction : String) (ctx : CommandContext) :
    (interpretCommand instruction ctx).confidence
      = calculateConfidence (detectIntent (extractKeywords instruction) instruction)
          (extractEntities (extractKeywords instruction) instruction)
          (extractKeywords instruction) := rfl

lemma interpretCommand_requiresApproval (instruction : String) (ctx : CommandContext) :
    (interpretCommand instruction ctx).requiresApproval
      = shouldRequireApproval (detectIntent (extractKeywords instruction) instruction) ctx := rfl

/-- Any Automation intent produced by the classifier carries exactly the
conditions extracted from the lower-cased instruction. -/
lemma detectIntent_automation_inv {words : List String} {instruction : String}
    {t : String} {c : List String}
    (h : detectIntent words instruction = Intent.Automation t c) :
    c = extractConditions (textToLower instruction) := by
  unfold detectIntent at h
  split_ifs at h <;> simp_all

/-- Each of the four substring checks appends at most once. -/
lemma extractConditions_bounds (instruction : String) :
    (extractConditions instruction).count "conditional" ≤ 2 ∧
    (extractConditions instruction).count "temporal" ≤ 2 ∧
    (extractConditions instruction).length ≤ 4 := by
  unfold extractConditions
  split_ifs <;> decide

/-- The `ghl_object` counting fold in the scorer counts the `ghl_object`
entities, and there is at most one of those per keyword. -/
lemma ghl_filter_length_le (words : List String) (instruction : String) :
    ((extractEntities words instruction).filter
        (fun entity => entity.entityType == "ghl_object")).length ≤ words.length := by
  rw [extractEntities_eq]
  simp [List.filter_append, List.filter_map, Function.comp]
  exact List.length_filter_le _ _

lemma calculateConfidence_bounds (intent : Intent) (entities : List Entity)
    (words : List String) :
    0 ≤ calculateConfidence intent entities words ∧
      calculateConfidence intent entities words ≤ 1 := by
  have hboost : (0 : ℚ) ≤ (entities.length : ℚ) * 0.1 := by positivity
  have hfold : (0 : ℚ) ≤ ((entities.foldl (fun acc entity =>
      if entity.entityType == "ghl_object" then acc + 1 else acc) (0 : Int) : Int) : ℚ) := by
    rw [foldl_count_eq]
    push_cast
    positivity
  unfold calculateConfidence
  dsimp only
  split_ifs with hw hcap hcap
  · norm_num
  · have hd : (0 : ℚ) ≤ ((entities.foldl (fun acc entity =>
        if entity.entityType == "ghl_object" then acc + 1 else acc) (0 : Int) : Int) : ℚ)
          / (words.length : ℚ) * 0.2 :=
      mul_nonneg (div_nonneg hfold hw.le) (by norm_num)
    refine ⟨?_, le_of_not_lt hcap⟩
    cases intent <;> dsimp only <;> linarith [hboost, hd]
  · norm_num
  · refine ⟨?_, le_of_not_lt hcap⟩
    cases intent <;> dsimp only <;> linarith [hboost]

/-- With Unknown intent the scorer returns at most
`0.1 + 0.1·entityCount + 0.2`: the base is 0.1, each entity adds 0.1, and the
ghl-object density boost adds at most 0.2 because there is at most one
ghl_object entity per keyword. -/
lemma calculateConfidence_unknown_le (entities : List Entity) (words : List String)
    (hle : (entities.filter (fun entity => entity.entityType == "ghl_object")).length
      ≤ words.length) :
    calculateConfidence Intent.Unknown entities words
      ≤ 0.1 + 0.1 * (entities.length : ℚ) + 0.2 := by
  have hfold_eq : ((entities.foldl (fun acc entity =>
      if entity.entityType == "ghl_object" then acc + 1 else acc) (0 : Int) : Int) : ℚ)
        = ((entities.filter (fun entity => entity.entityType == "ghl_object")).length : ℚ) := by
    rw [foldl_count_eq]
    push_cast
    ring
  unfold calculateConfidence
  dsimp only
  split_ifs with hw hcap hcap
  · have hdle : ((entities.foldl (fun acc entity =>
        if entity.entityType == "ghl_object" then acc + 1 else acc) (0 : Int) : Int) : ℚ)
          / (words.length : ℚ) ≤ 1 := by
      rw [hfold_eq, div_le_one hw]
      exact_mod_cast hle
    have hd2 := mul_le_mul_of_nonneg_right hdle (by norm_num : (0 : ℚ) ≤ 0.2)
    linarith
  · have hdle : ((entities.foldl (fun acc entity =>
        if entity.entityType == "ghl_object" then acc + 1 else acc) (0 : Int) : Int) : ℚ)
          / (words.length : ℚ) ≤ 1 := by
      rw [hfold_eq, div_le_one hw]
      exact_mod_cast hle
    have hd2 := mul_le_mul_of_nonneg_right hdle (by norm_num : (0 : ℚ) ≤ 0.2)
    linarith
  · linarith
  · linarith

/-! ### Claim theorems -/

/-- C3 (counterexample): on the instruction "schedule an automation when a form
is submitted" the classifier does not return triggerType "form": the word
"schedule" is itself in the trigger-type vocabulary and occurs first in the
keyword sequence. -/
theorem c3_counterexample :
    (interpretCommand "schedule an automation when a form is submitted"
        { locationId := "loc_1", sourceMetadata := none, priority := 1, retryCount := 0 }).intent
      ≠ Intent.Automation "form" ["conditional"] := by
  decide

/-- C3 (amended): for the instruction "schedule an automation when a form is
submitted" and any context, interpretCommand returns Intent = Automation with
triggerType = "schedule" and conditions = ["conditional"], and
requiresApproval = true. -/
theorem c3_schedule_automation_scenario (ctx : CommandContext) :
    (interpretCommand "schedule an automation when a form is submitted" ctx).intent
      = Intent.Automation "schedule" ["conditional"] ∧
    (interpretCommand "schedule an automation when a form is submitted" ctx).requiresApproval
      = true := by
  have hd : detectIntent (extractKeywords "schedule an automation when a form is submitted")
      "schedule an automation when a form is submitted"
      = Intent.Automation "schedule" ["conditional"] := by decide
  constructor
  · rw [interpretCommand_intent, hd]
  · rw [interpretCommand_requiresApproval, hd]
    rfl

/-- C4 (counterexample): an Automation instruction containing both "when" and
"if" gets the tag "conditional" twice, not at most once. -/
theorem c4_counterexample :
    (interpretCommand "configure when if"
        { locationId := "loc_1", sourceMetadata := none, priority := 1, retryCount := 0 }).intent
      = Intent.Automation "manual" ["conditional", "conditional"] ∧
    ¬ (["conditional", "conditional"] : List String).count "conditional" ≤ 1 := by
  decide

/-- C4 (amended): for every instruction classified as Automation, each of the
four substring checks ("when", "if", "after", "before") appends at most once,
so the conditions sequence contains "conditional" at most twice, "temporal" at
most twice, and has at most four elements. -/
theorem c4_conditions_bounded (instruction : String) (ctx : CommandContext)
    (t : String) (c : List String)
    (h : (interpretCommand instruction ctx).intent = Intent.Automation t c) :
    c.count "conditional" ≤ 2 ∧ c.count "temporal" ≤ 2 ∧ c.length ≤ 4 := by
  rw [interpretCommand_intent] at h
  have hc := detectIntent_automation_inv h
  subst hc
  exact extractConditions_bounds _

/-- C4 (witness): the amended bound at the concrete instruction
"configure when if". -/
theorem c4_conditions_bounded_witness :
    (interpretCommand "configure when if"
        { locationId := "loc_1", sourceMetadata := none, priority := 2, retryCount := 0 }).intent
      = Intent.Automation "manual" ["conditional", "conditional"] ∧
    ((["conditional", "conditional"] : List String).count "conditional" ≤ 2 ∧
     (["conditional", "conditional"] : List String).count "temporal" ≤ 2 ∧
     (["conditional", "conditional"] : List String).length ≤ 4) :=
  ⟨by decide, c4_conditions_bounded "configure when if"
    { locationId := "loc_1", sourceMetadata := none, priority := 2, retryCount := 0 }
    "manual" ["conditional", "conditional"] (by decide)⟩

/-- C5 (counterexample): for "today contact" the keyword "today" precedes
"contact" in the keyword sequence, yet its time_reference entity is emitted
after the ghl_object entity of "contact": discovery order does not hold across
entity types. -/
theorem c5_counterexample :
    extractKeywords "today contact" = ["today", "contact"] ∧
    (interpretCommand "today contact"
        { locationId := "loc_1", sourceMetadata := none, priority := 1, retryCount := 0 }).entities.map
        Entity.entityType = ["ghl_object", "time_reference"] ∧
    (interpretCommand "today contact"
        { locationId := "loc_1", sourceMetadata := none, priority := 1, retryCount := 0 }).entities.map
        Entity.value = ["contact", "today"] := by
  decide

/-- C5 (amended): the extracted entity sequence is grouped by entity type —
all ghl_object entities first, then all time_reference entities, then all
number entities — each block in discovery order over the keyword sequence,
with duplicate matches retained. -/
theorem c5_entities_grouped_by_type (instruction : String) (ctx : CommandContext) :
    (interpretCommand instruction ctx).entities
      = (((extractKeywords instruction).filter (fun w => decide (w ∈ ghlEntities))).map
          (fun w => { entityType := "ghl_object", value := w, confidence := 0.9 : Entity }))
        ++ (((extractKeywords instruction).filter (fun w => decide (w ∈ timeWords))).map
          (fun w => { entityType := "time_reference", value := w, confidence := 0.8 : Entity }))
        ++ (((extractKeywords instruction).filter
            (fun w => decide (w = "1" ∨ w = "2" ∨ w = "5" ∨ w = "10"))).map
          (fun w => { entityType := "number", value := w, confidence := 0.7 : Entity })) := by
  rw [interpretCommand_entities]
  exact extractEntities_eq _ _

/-- C6: for every instruction string and every context (including the empty
instruction), the confidence returned by interpretCommand lies in [0, 1]. -/
theorem c6_confidence_in_unit_interval (instruction : String) (ctx : CommandContext) :
    0 ≤ (interpretCommand instruction ctx).confidence ∧
      (interpretCommand instruction ctx).confidence ≤ 1 := by
  rw [interpretCommand_confidence]
  exact calculateConfidence_bounds _ _ _

/-- C7: requiresApproval is a pure function of intent and context that follows
the decision table: always true for Delete; for Create true iff the object
type is workflow, campaign or automation; always true for Automation; for
Update, Query and Unknown true iff context.priority ≥ 3. -/
theorem c7_approval_decision_table (intent : Intent) (ctx : CommandContext) :
    shouldRequireApproval intent ctx = true ↔
      (match intent with
       | Intent.Delete _ _ => True
       | Intent.Create objectType =>
         objectType = "workflow" ∨ objectType = "campaign" ∨ objectType = "automation"
       | Intent.Automation _ _ => True
       | _ => 3 ≤ ctx.priority) := by
  cases intent <;> simp [shouldRequireApproval, or_assoc]

/-- C10: no interpretation ever contains a "number" entity: the tokenizer
drops every token of length ≤ 2, so none of the whitelisted numeric literals
"1", "2", "5", "10" can reach the entity extractor. -/
theorem c10_no_number_entities (instruction : String) (ctx : CommandContext) :
    (interpretCommand instruction ctx).entities.all
      (fun entity => entity.entityType != "number") = true := by
  rw [interpretCommand_entities, extractEntities_eq]
  have hnum : (extractKeywords instruction).filter
      (fun w => decide (w = "1" ∨ w = "2" ∨ w = "5" ∨ w = "10")) = [] := by
    rw [List.filter_eq_nil]
    intro w hw
    have hlen := length_gt_two_of_mem_extractKeywords hw
    simp only [decide_eq_true_eq]
    rintro (rfl | rfl | rfl | rfl) <;> exact absurd hlen (by decide)
  rw [hnum]
  simp only [List.append_nil, List.map_nil, List.all_append, Bool.and_eq_true,
    List.all_eq_true, List.mem_map, List.mem_filter, decide_eq_true_eq, bne_iff_ne,
    ne_eq, forall_exists_index, and_imp]
  constructor
  · rintro x w hw hg rfl
    simp
  · rintro x w hw ht rfl
    simp

/-- C1 (counterexample): "create delete" has the deletion keyword "delete" in
its keyword sequence, yet the Create family is checked first, the resulting
intent is Create with objectType "unknown", and requiresApproval is false even
at priority 5. -/
theorem c1_counterexample :
    (∃ w ∈ extractKeywords "create delete", w ∈ deleteKeywords) ∧
    (interpretCommand "create delete"
        { locationId := "loc_1", sourceMetadata := none, priority := 5, retryCount := 0 }).requiresApproval
      = false := by
  decide

/-- C1 (amended): for every instruction whose keyword sequence contains a
deletion-family keyword and no creation-family or update-family keyword, and
for every context, interpretCommand returns requiresApproval = true regardless
of context.priority. -/
theorem c1_delete_requires_approval (instruction : String) (ctx : CommandContext)
    (hdel : ∃ w ∈ extractKeywords instruction, w ∈ deleteKeywords)
    (hcre : ∀ w ∈ extractKeywords instruction, w ∉ createKeywords)
    (hupd : ∀ w ∈ extractKeywords instruction, w ∉ updateKeywords) :
    (interpretCommand instruction ctx).requiresApproval = true := by
  have h1 : hasAnyKeyword (extractKeywords instruction) createKeywords = false :=
    (hasAnyKeyword_eq_false_iff _ _).2 hcre
  have h2 : hasAnyKeyword (extractKeywords instruction) updateKeywords = false :=
    (hasAnyKeyword_eq_false_iff _ _).2 hupd
  have h3 : hasAnyKeyword (extractKeywords instruction) deleteKeywords = true :=
    (hasAnyKeyword_iff _ _).2 hdel
  rw [interpretCommand_requiresApproval]
  simp [detectIntent, h1, h2, h3, shouldRequireApproval]

/-- C1 (witness): the amended statement at "delete the contact" with
priority 0. -/
theorem c1_delete_requires_approval_witness :
    (∃ w ∈ extractKeywords "delete the contact", w ∈ deleteKeywords) ∧
    (interpretCommand "delete the contact"
        { locationId := "loc_1", sourceMetadata := none, priority := 0, retryCount := 0 }).requiresApproval
      = true :=
  ⟨by decide, c1_delete_requires_approval "delete the contact"
    { locationId := "loc_1", sourceMetadata := none, priority := 0, retryCount := 0 }
    (by decide) (by decide) (by decide)⟩

/-- C2 (counterexample): the instruction "contact" matches no keyword family,
so the intent is Unknown, but its confidence is 0.4 = 0.1 + 0.1·1 + 0.2·1
(the ghl-density boost), which exceeds the claimed bound 0.1 + 0.1·1 = 0.2. -/
theorem c2_counterexample :
    (interpretCommand "contact"
        { locationId := "loc_1", sourceMetadata := none, priority := 1, retryCount := 0 }).intent
      = Intent.Unknown ∧
    ¬ ((interpretCommand "contact"
        { locationId := "loc_1", sourceMetadata := none, priority := 1, retryCount := 0 }).confidence
      ≤ 0.1 + 0.1 * ((interpretCommand "contact"
        { locationId := "loc_1", sourceMetadata := none, priority := 1, retryCount := 0 }).entities.length : ℚ)) := by
  have hn : (interpretCommand "contact"
      { locationId := "loc_1", sourceMetadata := none, priority := 1, retryCount := 0 }).entities.length
        = 1 := by decide
  have h0 : (interpretCommand "contact"
      { locationId := "loc_1", sourceMetadata := none, priority := 1, retryCount := 0 }).confidence
        = calculateConfidence Intent.Unknown
            [{ entityType := "ghl_object", value := "contact", confidence := 0.9 }]
            ["contact"] := rfl
  have hc : (interpretCommand "contact"
      { locationId := "loc_1", sourceMetadata := none, priority := 1, retryCount := 0 }).confidence
        = 2/5 := by
    rw [h0]
    unfold calculateConfidence
    dsimp only
    norm_num
  refine ⟨by decide, ?_⟩
  rw [hc, hn]
  norm_num

/-- C2 (amended): for every instruction whose keyword sequence matches none of
the five keyword families, the intent is Unknown and the confidence is at most
0.1 + 0.1 × entityCount + 0.2, the extra 0.2 coming from the ghl-object
density boost of the scorer. -/
theorem c2_unknown_confidence_bound (instruction : String) (ctx : CommandContext)
    (h : ∀ w ∈ extractKeywords instruction,
      w ∉ createKeywords ∧ w ∉ updateKeywords ∧ w ∉ deleteKeywords ∧
      w ∉ queryKeywords ∧ w ∉ automationKeywords) :
    (interpretCommand instruction ctx).intent = Intent.Unknown ∧
    (interpretCommand instruction ctx).confidence
      ≤ 0.1 + 0.1 * ((interpretCommand instruction ctx).entities.length : ℚ) + 0.2 := by
  have h1 : hasAnyKeyword (extractKeywords instruction) createKeywords = false :=
    (hasAnyKeyword_eq_false_iff _ _).2 (fun w hw => ((h w hw).1))
  have h2 : hasAnyKeyword (extractKeywords instruction) updateKeywords = false :=
    (hasAnyKeyword_eq_false_iff _ _).2 (fun w hw => ((h w hw).2.1))
  have h3 : hasAnyKeyword (extractKeywords instruction) deleteKeywords = false :=
    (hasAnyKeyword_eq_false_iff _ _).2 (fun w hw => ((h w hw).2.2.1))
  have h4 : hasAnyKeyword (extractKeywords instruction) queryKeywords = false :=
    (hasAnyKeyword_eq_false_iff _ _).2 (fun w hw => ((h w hw).2.2.2.1))
  have h5 : hasAnyKeyword (extractKeywords instruction) automationKeywords = false :=
    (hasAnyKeyword_eq_false_iff _ _).2 (fun w hw => ((h w hw).2.2.2.2))
  have hintent : detectIntent (extractKeywords instruction) instruction = Intent.Unknown := by
    simp [detectIntent, h1, h2, h3, h4, h5]
  refine ⟨by rw [interpretCommand_intent, hintent], ?_⟩
  rw [interpretCommand_confidence, interpretCommand_entities, hintent]
  exact calculateConfidence_unknown_le _ _
    (ghl_filter_length_le (extractKeywords instruction) instruction)

/-- C2 (witness): the amended bound at the instruction "contact". -/
theorem c2_unknown_confidence_bound_witness :
    (∀ w ∈ extractKeywords "contact",
      w ∉ createKeywords ∧ w ∉ updateKeywords ∧ w ∉ deleteKeywords ∧
      w ∉ queryKeywords ∧ w ∉ automationKeywords) ∧
    ((interpretCommand "contact"
        { locationId := "loc_1", sourceMetadata := none, priority := 3, retryCount := 0 }).intent
      = Intent.Unknown ∧
    (interpretCommand "contact"
        { locationId := "loc_1", sourceMetadata := none, priority := 3, retryCount := 0 }).confidence
      ≤ 0.1 + 0.1 * ((interpretCommand "contact"
        { locationId := "loc_1", sourceMetadata := none, priority := 3, retryCount := 0 }).entities.length : ℚ) + 0.2) :=
  ⟨by decide, c2_unknown_confidence_bound "contact"
    { locationId := "loc_1", sourceMetadata := none, priority := 3, retryCount := 0 }
    (by decide)⟩

/-- C8: formatting a Failed result for voice yields the apology prefix
followed by the failure reason, and shouldEndCall = true; any non-Failed
status yields shouldEndCall = false. -/
theorem c8_voice_failed_formatting (result : ExecutionResult) :
    (∀ reason, result.status = ExecutionStatus.Failed reason →
      (formatVoiceResponse result).spokenText
          = "I\x27m sorry, but I encountered an issue: " ++ reason ∧
      (formatVoiceResponse result).shouldEndCall = true) ∧
    ((∀ reason, result.status ≠ ExecutionStatus.Failed reason) →
      (formatVoiceResponse result).shouldEndCall = false) := by
  constructor
  · intro reason h
    constructor
    · show generateSpokenText result = _
      unfold generateSpokenText
      rw [h]
    · show shouldEndVoiceCall result = true
      unfold shouldEndVoiceCall
      rw [h]
  · intro h
    show shouldEndVoiceCall result = false
    unfold shouldEndVoiceCall
    rcases hs : result.status with _ | _ | _ | reason | _ <;> simp_all

/-- C8 (witness): a concrete Failed result with reason "timeout". -/
theorem c8_voice_failed_formatting_witness :
    ({ commandId := "cmd_1", status := ExecutionStatus.Failed "timeout", actions := [],
       insights := [], nextSteps := [], duration := 100 } : ExecutionResult).status
      = ExecutionStatus.Failed "timeout" ∧
    ((formatVoiceResponse
        { commandId := "cmd_1", status := ExecutionStatus.Failed "timeout", actions := [],
          insights := [], nextSteps := [], duration := 100 }).spokenText
      = "I\x27m sorry, but I encountered an issue: " ++ "timeout" ∧
    (formatVoiceResponse
        { commandId := "cmd_1", status := ExecutionStatus.Failed "timeout", actions := [],
          insights := [], nextSteps := [], duration := 100 }).shouldEndCall = true) :=
  ⟨rfl, (c8_voice_failed_formatting
    { commandId := "cmd_1", status := ExecutionStatus.Failed "timeout", actions := [],
      insights := [], nextSteps := [], duration := 100 }).1 "timeout" rfl⟩

/-- C9: the workflow formatting yields continue/next with the three
string-valued variables (execution status, command id, duration) on Completed,
stop/error with empty variables on Failed, and wait/pending with empty
variables otherwise. -/
theorem c9_workflow_decision (result : ExecutionResult) :
    (result.status = ExecutionStatus.Completed →
      generateWorkflowDecision result
        = { decision := "continue", nextStep := "next",
            variables' := [("execution_status", "completed"),
                           ("command_id", result.commandId),
                           ("duration", toString result.duration)] }) ∧
    (∀ reason, result.status = ExecutionStatus.Failed reason →
      generateWorkflowDecision result
        = { decision := "stop", nextStep := "error", variables' := [] }) ∧
    ((result.status ≠ ExecutionStatus.Completed ∧
      ∀ reason, result.status ≠ ExecutionStatus.Failed reason) →
      generateWorkflowDecision result
        = { decision := "wait", nextStep := "pending", variables' := [] }) := by
  refine ⟨?_, ?_, ?_⟩
  · intro h
    unfold generateWorkflowDecision generateWorkflowVariables
    rw [h]
    rfl
  · intro reason h
    unfold generateWorkflowDecision
    rw [h]
  · rintro ⟨hc, hf⟩
    unfold generateWorkflowDecision
    rcases hs : result.status with _ | _ | _ | reason | _ <;> simp_all

/-- C9 (witness): a concrete Completed result. -/
theorem c9_workflow_decision_witness :
    ({ commandId := "cmd_2", status := ExecutionStatus.Completed, actions := [],
       insights := [], nextSteps := [], duration := 42 } : ExecutionResult).status
      = ExecutionStatus.Completed ∧
    generateWorkflowDecision
        { commandId := "cmd_2", status := ExecutionStatus.Completed, actions := [],
          insights := [], nextSteps := [], duration := 42 }
      = { decision := "continue", nextStep := "next",
          variables' := [("execution_status", "completed"),
                         ("command_id", "cmd_2"),
                         ("duration", toString 42)] } :=
  ⟨rfl, (c9_workflow_decision
    { commandId := "cmd_2", status := ExecutionStatus.Completed, actions := [],
      insights := [], nextSteps := [], duration := 42 }).1 rfl⟩

end AgentAdam
